import Mathlib

/-
Verification of `plot_cvr_distributions` (src/experimentation_charts.py).

The function computes, from two binary samples, each arm's conversion rate
and standard error, evaluates normal densities on 1000-point grids, shades
significance tails bounded by inverse-CDF (ppf) quantile requests on the
control distribution, and draws an annotated chart.

Embedding choices:
  * samples are lists of rationals (the numpy arrays of 0/1 values);
  * exact rational arithmetic stands in for floats: lengths, means and the
    variance expressions are rationals, standard errors are `Real.sqrt` of
    the cast variance;
  * a quantile request is recorded as the triple (mean, variance, level):
    the code only ever draws at the requested quantile, so identifying the
    request identifies the critical value;
  * the drawing sequence is a trace of abstract plot commands in source
    order; ppf levels are domain-checked where the source evaluates them.

Error taxonomy: the source has no explicit error classes.  Modelled from
the spec: an empty sample must fail with `EmptySampleError` before any
plotting (the source indeed fails at the division `1 / control_trials`
on line 31, before `plt.subplots` on line 42), and an out-of-domain
quantile level must fail with `DomainError` at the ppf evaluation.
-/

namespace ExperimentationCharts

/-- A numpy array of outcome values, embedded as a list of rationals. -/
abbrev Sample := List ℚ

/-- Modelled from the spec: the error taxonomy of section 7.  The source
raises no named errors itself; `EmptySampleError` stands for the failure on
an empty sample (in the source, a division by zero at line 31) and
`DomainError` for an out-of-domain inverse-CDF quantile request. -/
inductive Err where
  | EmptySampleError
  | DomainError
deriving DecidableEq

/-- An inverse-CDF (ppf) request: quantile of N(mu, sqrt var) at level p.
The normal distribution is identified by its mean and variance. -/
structure PpfReq where
  mu : ℚ
  var : ℚ
  p : ℚ
deriving DecidableEq

/-- The two arms of the experiment. -/
inductive Arm where
  | control
  | experimental
deriving DecidableEq

/-- Abstract drawing commands, one per plotting call of the source, in
source order.  Commands carry only the statistics-derived data relevant to
the claims. -/
inductive PlotCmd where
  | subplots
  | plotCurve (arm : Arm)
  | fillBetween (upperTail : Bool) (threshold : PpfReq)
  | vlinesCritical (threshold : PpfReq)
  | setYlim
  | hlinesBaseline
  | vlinesCvr (x : ℚ)
  | markerAt (x : ℚ)
  | annotateAt (x : ℚ)
  | legend
  | title
  | hideYAxis
  | hideXAxis
  | showChart
deriving DecidableEq

/-- `np.linspace a b n`: `n` evenly spaced points from `a` to `b`,
endpoints included, step `(b - a) / (n - 1)`. -/
noncomputable def linspace (a b : ℝ) (n : ℕ) : List ℝ :=
  (List.range n).map (fun i : ℕ => a + (i : ℝ) * ((b - a) / ((n - 1 : ℕ) : ℝ)))

/-- Density of the normal distribution N(mu, sigma), as evaluated by
`stats.norm(mu, sigma).pdf`. -/
noncomputable def normPdf (mu sigma x : ℝ) : ℝ :=
  Real.exp (-((x - mu) ^ 2) / (2 * sigma ^ 2)) / (sigma * Real.sqrt (2 * Real.pi))

/-- Modelled from the spec: a quantile level is in the domain of the
inverse normal CDF iff it lies strictly between 0 and 1; an out-of-domain
request must fail with `DomainError`. -/
def validLevel (p : ℚ) : Bool :=
  decide (0 < p) && decide (p < 1)

/-- All statistics computed by `plot_cvr_distributions` (source lines
23-39 plus the quantile levels of lines 50-89), faithful to the source
expressions.  Standard errors are kept both as their exact rational square
(`population_var`, `experimental_var`) and as the real square root the
source computes (`population_std`, `experimental_std`). -/
structure Stats where
  control_trials : ℕ
  experimental_trials : ℕ
  control_cvr : ℚ
  experimental_cvr : ℚ
  population_var : ℚ
  experimental_var : ℚ
  population_std : ℝ
  experimental_std : ℝ
  x_control : List ℝ
  x_experimental : List ℝ
  y_control : List ℝ
  y_experimental : List ℝ
  criticalRequests : List PpfReq

/-- The statistics portion of `plot_cvr_distributions`: source lines 23-39
translated term by term, plus the critical-value quantile requests of the
two branches (lines 50-89).  `control.mean()` is `sum / length`;
`population_std` is `sqrt((1/n_c + 1/n_e) * cvr_c * (1 - cvr_c))` (line 31)
and `experimental_std` is `sqrt(1/n_e * cvr_e * (1 - cvr_e))` (line 32);
the x grids are 1000-point linspaces over mean plus or minus 4 standard
deviations (lines 35-36) and the y values apply the normal pdf pointwise
(lines 38-39). -/
noncomputable def computeStats (control experimental : Sample) (alpha : ℚ) (tails : ℤ) : Stats :=
  let control_trials := control.length
  let experimental_trials := experimental.length
  let control_cvr : ℚ := control.sum / (control_trials : ℚ)
  let experimental_cvr : ℚ := experimental.sum / (experimental_trials : ℚ)
  let population_var : ℚ :=
    (1 / (control_trials : ℚ) + 1 / (experimental_trials : ℚ)) * control_cvr * (1 - control_cvr)
  let experimental_var : ℚ :=
    1 / (experimental_trials : ℚ) * experimental_cvr * (1 - experimental_cvr)
  let population_std : ℝ := Real.sqrt (population_var : ℝ)
  let experimental_std : ℝ := Real.sqrt (experimental_var : ℝ)
  let x_control : List ℝ :=
    linspace ((control_cvr : ℝ) - 4 * population_std) ((control_cvr : ℝ) + 4 * population_std) 1000
  let x_experimental : List ℝ :=
    linspace ((experimental_cvr : ℝ) - 4 * experimental_std)
      ((experimental_cvr : ℝ) + 4 * experimental_std) 1000
  let y_control : List ℝ := x_control.map (normPdf (control_cvr : ℝ) population_std)
  let y_experimental : List ℝ :=
    x_experimental.map (normPdf (experimental_cvr : ℝ) experimental_std)
  let criticalRequests : List PpfReq :=
    if tails = 2 then
      [⟨control_cvr, population_var, 1 - alpha / 2⟩, ⟨control_cvr, population_var, alpha / 2⟩]
    else
      [⟨control_cvr, population_var, 1 - alpha⟩]
  { control_trials := control_trials
    experimental_trials := experimental_trials
    control_cvr := control_cvr
    experimental_cvr := experimental_cvr
    population_var := population_var
    experimental_var := experimental_var
    population_std := population_std
    experimental_std := experimental_std
    x_control := x_control
    x_experimental := x_experimental
    y_control := y_control
    y_experimental := y_experimental
    criticalRequests := criticalRequests }

/-- Outcome of one call: the drawing trace up to the point of success or
failure, the result (statistics on success, error on failure), and the
input arrays as they stand after the call (the source never writes to
them, so state passing threads them through unchanged). -/
structure RunOutcome where
  trace : List PlotCmd
  result : Except Err Stats
  finalControl : Sample
  finalExperimental : Sample

/-- The whole of `plot_cvr_distributions` (source lines 22-137): compute
the statistics, then issue the drawing sequence in source order,
domain-checking each quantile level where the source evaluates
`stats.norm(...).ppf`.  The empty-sample guard is step 1 of the spec's
algorithm; in the source an empty sample fails at line 31 (division by
zero), likewise before any plotting call. -/
noncomputable def run (control experimental : Sample) (alpha : ℚ) (tails : ℤ) : RunOutcome :=
  if control.length = 0 ∨ experimental.length = 0 then
    { trace := []
      result := .error .EmptySampleError
      finalControl := control
      finalExperimental := experimental }
  else
    let r := computeStats control experimental alpha tails
    let preTrace : List PlotCmd := [.subplots, .plotCurve .control, .plotCurve .experimental]
    let postTrace : List PlotCmd :=
      [.setYlim, .hlinesBaseline, .vlinesCvr r.experimental_cvr, .markerAt r.experimental_cvr,
        .annotateAt r.experimental_cvr, .vlinesCvr r.control_cvr, .markerAt r.control_cvr,
        .annotateAt r.control_cvr, .legend, .title, .hideYAxis, .hideXAxis, .showChart]
    if tails = 2 then
      let upper : PpfReq := ⟨r.control_cvr, r.population_var, 1 - alpha / 2⟩
      let lower : PpfReq := ⟨r.control_cvr, r.population_var, alpha / 2⟩
      if validLevel (1 - alpha / 2) then
        if validLevel (alpha / 2) then
          { trace := preTrace ++ [.fillBetween true upper, .vlinesCritical upper,
              .fillBetween false lower, .vlinesCritical lower] ++ postTrace
            result := .ok r
            finalControl := control
            finalExperimental := experimental }
        else
          { trace := preTrace ++ [.fillBetween true upper, .vlinesCritical upper]
            result := .error .DomainError
            finalControl := control
            finalExperimental := experimental }
      else
        { trace := preTrace
          result := .error .DomainError
          finalControl := control
          finalExperimental := experimental }
    else
      let single : PpfReq := ⟨r.control_cvr, r.population_var, 1 - alpha⟩
      if validLevel (1 - alpha) then
        { trace := preTrace ++ [.fillBetween true single, .vlinesCritical single] ++ postTrace
          result := .ok r
          finalControl := control
          finalExperimental := experimental }
      else
        { trace := preTrace
          result := .error .DomainError
          finalControl := control
          finalExperimental := experimental }

/-- C1: a call of `plot_cvr_distributions` with an empty control or empty
experimental sample fails with `EmptySampleError`, and its drawing trace is
empty, so the failure occurs before any plotting call. -/
theorem empty_sample_fails_before_plotting (control experimental : Sample) (alpha : ℚ)
    (tails : ℤ) (h : control = [] ∨ experimental = []) :
    (run control experimental alpha tails).trace = [] ∧
      (run control experimental alpha tails).result = .error .EmptySampleError := by
  have hlen : control.length = 0 ∨ experimental.length = 0 := by
    rcases h with h | h <;> [exact Or.inl (by simp [h]); exact Or.inr (by simp [h])]
  rw [run, if_pos hlen]
  exact ⟨rfl, rfl⟩

/-- Witness for C1 at concrete input: empty control, experimental `[1]`. -/
theorem empty_sample_fails_before_plotting_witness :
    (run [] [1] (1 / 20) 2).trace = [] ∧
      (run [] [1] (1 / 20) 2).result = .error .EmptySampleError :=
  empty_sample_fails_before_plotting [] [1] (1 / 20) 2 (Or.inl rfl)

/-- C8: `plot_cvr_distributions` is deterministic: two calls with equal
inputs produce equal outcomes, in particular equal computed statistics. -/
theorem run_deterministic (c₁ c₂ e₁ e₂ : Sample) (a₁ a₂ : ℚ) (t₁ t₂ : ℤ)
    (hc : c₁ = c₂) (he : e₁ = e₂) (ha : a₁ = a₂) (ht : t₁ = t₂) :
    run c₁ e₁ a₁ t₁ = run c₂ e₂ a₂ t₂ ∧
      computeStats c₁ e₁ a₁ t₁ = computeStats c₂ e₂ a₂ t₂ := by
  subst hc he ha ht
  exact ⟨rfl, rfl⟩

/-- Witness for C8 at concrete input. -/
theorem run_deterministic_witness :
    run [1, 0] [1] (1 / 20) 2 = run [1, 0] [1] (1 / 20) 2 ∧
      computeStats [1, 0] [1] (1 / 20) 2 = computeStats [1, 0] [1] (1 / 20) 2 :=
  run_deterministic [1, 0] [1, 0] [1] [1] (1 / 20) (1 / 20) 2 2 rfl rfl rfl rfl

/-- C9: the input samples are not mutated: after any call, both sequences
hold exactly the elements, in order, that they held before. -/
theorem run_does_not_mutate_inputs (control experimental : Sample) (alpha : ℚ) (tails : ℤ) :
    (run control experimental alpha tails).finalControl = control ∧
      (run control experimental alpha tails).finalExperimental = experimental := by
  refine ⟨?_, ?_⟩ <;> (unfold run; repeat' split) <;> rfl

theorem computeStats_control_cvr (c e : Sample) (a : ℚ) (t : ℤ) :
    (computeStats c e a t).control_cvr = c.sum / (c.length : ℚ) := rfl

theorem computeStats_experimental_cvr (c e : Sample) (a : ℚ) (t : ℤ) :
    (computeStats c e a t).experimental_cvr = e.sum / (e.length : ℚ) := rfl

theorem computeStats_population_var (c e : Sample) (a : ℚ) (t : ℤ) :
    (computeStats c e a t).population_var =
      (1 / (c.length : ℚ) + 1 / (e.length : ℚ)) * (c.sum / (c.length : ℚ)) *
        (1 - c.sum / (c.length : ℚ)) := rfl

theorem computeStats_experimental_var (c e : Sample) (a : ℚ) (t : ℤ) :
    (computeStats c e a t).experimental_var =
      1 / (e.length : ℚ) * (e.sum / (e.length : ℚ)) * (1 - e.sum / (e.length : ℚ)) := rfl

theorem computeStats_population_std (c e : Sample) (a : ℚ) (t : ℤ) :
    (computeStats c e a t).population_std =
      Real.sqrt (((computeStats c e a t).population_var : ℝ)) := rfl

theorem computeStats_experimental_std (c e : Sample) (a : ℚ) (t : ℤ) :
    (computeStats c e a t).experimental_std =
      Real.sqrt (((computeStats c e a t).experimental_var : ℝ)) := rfl

/-- C3: the pooled/control standard error equals
`sqrt((1/n_c + 1/n_e) * rate_c * (1 - rate_c))`, with `rate_c` the control
sample mean: the control rate, not the experimental rate, appears in the
variance term. -/
theorem population_std_formula (c e : Sample) (a : ℚ) (t : ℤ) (hc : c ≠ []) (he : e ≠ []) :
    (computeStats c e a t).population_std =
      Real.sqrt ((1 / (c.length : ℝ) + 1 / (e.length : ℝ)) *
        ((c.sum : ℝ) / (c.length : ℝ)) * (1 - (c.sum : ℝ) / (c.length : ℝ))) := by
  rw [computeStats_population_std, computeStats_population_var]
  congr 1
  push_cast
  ring

/-- Witness for C3 at control `[1, 0]`, experimental `[1, 1, 0]`. -/
theorem population_std_formula_witness :
    (computeStats [1, 0] [1, 1, 0] (1 / 20) 2).population_std =
      Real.sqrt ((1 / (([1, 0] : Sample).length : ℝ) + 1 / (([1, 1, 0] : Sample).length : ℝ)) *
        ((([1, 0] : Sample).sum : ℝ) / (([1, 0] : Sample).length : ℝ)) *
        (1 - (([1, 0] : Sample).sum : ℝ) / (([1, 0] : Sample).length : ℝ))) :=
  population_std_formula [1, 0] [1, 1, 0] (1 / 20) 2 (by decide) (by decide)

/-- C4: the experimental standard error equals
`sqrt((1/n_e) * rate_e * (1 - rate_e))`, using only the experimental arm's
own sample mean and its own sample count. -/
theorem experimental_std_formula (c e : Sample) (a : ℚ) (t : ℤ) (hc : c ≠ []) (he : e ≠ []) :
    (computeStats c e a t).experimental_std =
      Real.sqrt (1 / (e.length : ℝ) *
        ((e.sum : ℝ) / (e.length : ℝ)) * (1 - (e.sum : ℝ) / (e.length : ℝ))) := by
  rw [computeStats_experimental_std, computeStats_experimental_var]
  congr 1
  push_cast
  ring

/-- Witness for C4 at control `[1, 0]`, experimental `[1, 1, 0]`. -/
theorem experimental_std_formula_witness :
    (computeStats [1, 0] [1, 1, 0] (1 / 20) 2).experimental_std =
      Real.sqrt (1 / (([1, 1, 0] : Sample).length : ℝ) *
        ((([1, 1, 0] : Sample).sum : ℝ) / (([1, 1, 0] : Sample).length : ℝ)) *
        (1 - (([1, 1, 0] : Sample).sum : ℝ) / (([1, 1, 0] : Sample).length : ℝ))) :=
  experimental_std_formula [1, 0] [1, 1, 0] (1 / 20) 2 (by decide) (by decide)

/-- C6: a non-empty all-zero (resp. all-one) sample yields a conversion
rate of exactly 0 (resp. exactly 1) and a standard error of exactly 0 —
for the control arm via the pooled formula, for the experimental arm via
its own formula. -/
theorem degenerate_sample_stats (c e : Sample) (a : ℚ) (t : ℤ) (hc : c ≠ []) (he : e ≠ []) :
    ((∀ x ∈ c, x = (0 : ℚ)) →
      (computeStats c e a t).control_cvr = 0 ∧ (computeStats c e a t).population_std = 0) ∧
    ((∀ x ∈ c, x = (1 : ℚ)) →
      (computeStats c e a t).control_cvr = 1 ∧ (computeStats c e a t).population_std = 0) ∧
    ((∀ x ∈ e, x = (0 : ℚ)) →
      (computeStats c e a t).experimental_cvr = 0 ∧
        (computeStats c e a t).experimental_std = 0) ∧
    ((∀ x ∈ e, x = (1 : ℚ)) →
      (computeStats c e a t).experimental_cvr = 1 ∧
        (computeStats c e a t).experimental_std = 0) := by
  have hcl : ((c.length : ℚ)) ≠ 0 := Nat.cast_ne_zero.mpr (by simpa using hc)
  have hel : ((e.length : ℚ)) ≠ 0 := Nat.cast_ne_zero.mpr (by simpa using he)
  refine ⟨fun h0 => ?_, fun h1 => ?_, fun h0 => ?_, fun h1 => ?_⟩
  · have hs : c.sum = 0 := List.sum_eq_zero h0
    have hcvr : (computeStats c e a t).control_cvr = 0 := by
      rw [computeStats_control_cvr, hs, zero_div]
    refine ⟨hcvr, ?_⟩
    rw [computeStats_population_std, computeStats_population_var,
      computeStats_control_cvr] at *
    rw [hs, zero_div]
    norm_num
  · have hs : c.sum = (c.length : ℚ) := by
      rw [List.sum_eq_card_nsmul c 1 h1]
      simp
    have hcvr : (computeStats c e a t).control_cvr = 1 := by
      rw [computeStats_control_cvr, hs, div_self hcl]
    refine ⟨hcvr, ?_⟩
    rw [computeStats_population_std, computeStats_population_var, hs, div_self hcl]
    norm_num
  · have hs : e.sum = 0 := List.sum_eq_zero h0
    have hcvr : (computeStats c e a t).experimental_cvr = 0 := by
      rw [computeStats_experimental_cvr, hs, zero_div]
    refine ⟨hcvr, ?_⟩
    rw [computeStats_experimental_std, computeStats_experimental_var, hs, zero_div]
    norm_num
  · have hs : e.sum = (e.length : ℚ) := by
      rw [List.sum_eq_card_nsmul e 1 h1]
      simp
    have hcvr : (computeStats c e a t).experimental_cvr = 1 := by
      rw [computeStats_experimental_cvr, hs, div_self hel]
    refine ⟨hcvr, ?_⟩
    rw [computeStats_experimental_std, computeStats_experimental_var, hs, div_self hel]
    norm_num

/-- Witness for C6 at control `[0, 0]`, experimental `[1, 1]`. -/
theorem degenerate_sample_stats_witness :
    ((∀ x ∈ ([0, 0] : Sample), x = (0 : ℚ)) →
      (computeStats [0, 0] [1, 1] (1 / 20) 2).control_cvr = 0 ∧
        (computeStats [0, 0] [1, 1] (1 / 20) 2).population_std = 0) ∧
    ((∀ x ∈ ([0, 0] : Sample), x = (1 : ℚ)) →
      (computeStats [0, 0] [1, 1] (1 / 20) 2).control_cvr = 1 ∧
        (computeStats [0, 0] [1, 1] (1 / 20) 2).population_std = 0) ∧
    ((∀ x ∈ ([1, 1] : Sample), x = (0 : ℚ)) →
      (computeStats [0, 0] [1, 1] (1 / 20) 2).experimental_cvr = 0 ∧
        (computeStats [0, 0] [1, 1] (1 / 20) 2).experimental_std = 0) ∧
    ((∀ x ∈ ([1, 1] : Sample), x = (1 : ℚ)) →
      (computeStats [0, 0] [1, 1] (1 / 20) 2).experimental_cvr = 1 ∧
        (computeStats [0, 0] [1, 1] (1 / 20) 2).experimental_std = 0) :=
  degenerate_sample_stats [0, 0] [1, 1] (1 / 20) 2 (by decide) (by decide)

theorem computeStats_congr (c₁ c₂ e₁ e₂ : Sample) (a : ℚ) (t : ℤ)
    (hcl : c₁.length = c₂.length) (hcs : c₁.sum = c₂.sum)
    (hel : e₁.length = e₂.length) (hes : e₁.sum = e₂.sum) :
    computeStats c₁ e₁ a t = computeStats c₂ e₂ a t := by
  unfold computeStats
  rw [hcl, hcs, hel, hes]

/-- C10: every statistic computed by `plot_cvr_distributions` depends on
each input sample only through its length and its sum; in particular,
permuting either input sample changes no computed statistic. -/
theorem stats_depend_only_on_length_and_sum (c₁ c₂ e₁ e₂ : Sample) (a : ℚ) (t : ℤ) :
    (c₁.length = c₂.length → c₁.sum = c₂.sum → e₁.length = e₂.length → e₁.sum = e₂.sum →
      computeStats c₁ e₁ a t = computeStats c₂ e₂ a t) ∧
    (c₁.Perm c₂ → e₁.Perm e₂ → computeStats c₁ e₁ a t = computeStats c₂ e₂ a t) := by
  refine ⟨fun h₁ h₂ h₃ h₄ => computeStats_congr c₁ c₂ e₁ e₂ a t h₁ h₂ h₃ h₄, fun hp hq => ?_⟩
  exact computeStats_congr c₁ c₂ e₁ e₂ a t hp.length_eq hp.sum_eq hq.length_eq hq.sum_eq

/-- Witness for C10: swapping the entries of the control sample and
reversing the experimental sample changes no statistic. -/
theorem stats_depend_only_on_length_and_sum_witness :
    ((([1, 0] : Sample).length = ([0, 1] : Sample).length →
      ([1, 0] : Sample).sum = ([0, 1] : Sample).sum →
      ([1, 1, 0] : Sample).length = ([0, 1, 1] : Sample).length →
      ([1, 1, 0] : Sample).sum = ([0, 1, 1] : Sample).sum →
      computeStats [1, 0] [1, 1, 0] (1 / 20) 2 = computeStats [0, 1] [0, 1, 1] (1 / 20) 2) ∧
    (([1, 0] : Sample).Perm [0, 1] → ([1, 1, 0] : Sample).Perm [0, 1, 1] →
      computeStats [1, 0] [1, 1, 0] (1 / 20) 2 = computeStats [0, 1] [0, 1, 1] (1 / 20) 2)) ∧
    computeStats [1, 0] [1, 1, 0] (1 / 20) 2 = computeStats [0, 1] [0, 1, 1] (1 / 20) 2 :=
  ⟨stats_depend_only_on_length_and_sum [1, 0] [0, 1] [1, 1, 0] [0, 1, 1] (1 / 20) 2,
    (stats_depend_only_on_length_and_sum [1, 0] [0, 1] [1, 1, 0] [0, 1, 1] (1 / 20) 2).1
      (by decide) (by norm_num) (by decide) (by norm_num)⟩

theorem computeStats_criticalRequests (c e : Sample) (a : ℚ) (t : ℤ) :
    (computeStats c e a t).criticalRequests =
      if t = 2 then
        [⟨(computeStats c e a t).control_cvr, (computeStats c e a t).population_var, 1 - a / 2⟩,
          ⟨(computeStats c e a t).control_cvr, (computeStats c e a t).population_var, a / 2⟩]
      else
        [⟨(computeStats c e a t).control_cvr, (computeStats c e a t).population_var, 1 - a⟩] :=
  rfl

theorem validLevel_true_of (p : ℚ) (h0 : 0 < p) (h1 : p < 1) : validLevel p = true := by
  simp [validLevel, h0, h1]

theorem run_result_valid (c e : Sample) (a : ℚ) (t : ℤ) (hc : c ≠ []) (he : e ≠ [])
    (h0 : 0 < a) (h1 : a < 1) :
    (run c e a t).result = .ok (computeStats c e a t) := by
  have hlen : ¬(c.length = 0 ∨ e.length = 0) := by
    push_neg
    exact ⟨fun h => hc (List.length_eq_zero.mp h), fun h => he (List.length_eq_zero.mp h)⟩
  unfold run
  rw [if_neg hlen]
  by_cases ht : t = 2
  · have hv1 : validLevel (1 - a / 2) = true := validLevel_true_of _ (by linarith) (by linarith)
    have hv2 : validLevel (a / 2) = true := validLevel_true_of _ (by linarith) (by linarith)
    simp [ht, hv1, hv2]
  · have hv : validLevel (1 - a) = true := validLevel_true_of _ (by linarith) (by linarith)
    simp [ht, hv]

/-- C5: on a valid call the run succeeds, and the critical values are
quantile requests on the control distribution N(rate_c, se_c) only: for
`tails = 2` the upper request is at level `1 - alpha/2` and the lower at
`alpha/2`; for every `tails ≠ 2` the single request is at `1 - alpha`. -/
theorem critical_values_on_control_distribution (c e : Sample) (a : ℚ) (t : ℤ)
    (hc : c ≠ []) (he : e ≠ []) (h0 : 0 < a) (h1 : a < 1) :
    (run c e a t).result = .ok (computeStats c e a t) ∧
    (t = 2 → (computeStats c e a t).criticalRequests =
      [⟨(computeStats c e a t).control_cvr, (computeStats c e a t).population_var, 1 - a / 2⟩,
        ⟨(computeStats c e a t).control_cvr, (computeStats c e a t).population_var, a / 2⟩]) ∧
    (t ≠ 2 → (computeStats c e a t).criticalRequests =
      [⟨(computeStats c e a t).control_cvr, (computeStats c e a t).population_var, 1 - a⟩]) := by
  refine ⟨run_result_valid c e a t hc he h0 h1, fun ht => ?_, fun ht => ?_⟩
  · rw [computeStats_criticalRequests, if_pos ht]
  · rw [computeStats_criticalRequests, if_neg ht]

/-- Witness for C5 at a one-tailed call with `tails = 3`. -/
theorem critical_values_on_control_distribution_witness :
    (run [1, 0] [1, 1, 0] (1 / 20) 3).result = .ok (computeStats [1, 0] [1, 1, 0] (1 / 20) 3) ∧
    ((3 : ℤ) = 2 → (computeStats [1, 0] [1, 1, 0] (1 / 20) 3).criticalRequests =
      [⟨(computeStats [1, 0] [1, 1, 0] (1 / 20) 3).control_cvr,
          (computeStats [1, 0] [1, 1, 0] (1 / 20) 3).population_var, 1 - (1 / 20) / 2⟩,
        ⟨(computeStats [1, 0] [1, 1, 0] (1 / 20) 3).control_cvr,
          (computeStats [1, 0] [1, 1, 0] (1 / 20) 3).population_var, (1 / 20) / 2⟩]) ∧
    ((3 : ℤ) ≠ 2 → (computeStats [1, 0] [1, 1, 0] (1 / 20) 3).criticalRequests =
      [⟨(computeStats [1, 0] [1, 1, 0] (1 / 20) 3).control_cvr,
          (computeStats [1, 0] [1, 1, 0] (1 / 20) 3).population_var, 1 - 1 / 20⟩]) :=
  critical_values_on_control_distribution [1, 0] [1, 1, 0] (1 / 20) 3
    (by decide) (by decide) (by norm_num) (by norm_num)

theorem linspace_length (a b : ℝ) (n : ℕ) : (linspace a b n).length = n := by
  simp only [linspace, List.length_map, List.length_range]

theorem linspace_getD (a b : ℝ) (n i : ℕ) (h : i < n) :
    (linspace a b n).getD i 0 = a + (i : ℝ) * ((b - a) / ((n - 1 : ℕ) : ℝ)) := by
  unfold linspace
  rw [List.getD_eq_getElem?_getD, List.getElem?_map, List.getElem?_range h]
  rfl

theorem linspace_first (a b : ℝ) : (linspace a b 1000).getD 0 0 = a := by
  rw [linspace_getD a b 1000 0 (by norm_num)]
  norm_num

theorem linspace_last (a b : ℝ) : (linspace a b 1000).getD 999 0 = b := by
  rw [linspace_getD a b 1000 999 (by norm_num)]
  have h999 : ((1000 - 1 : ℕ) : ℝ) = 999 := by norm_num
  rw [h999]
  field_simp

theorem linspace_spacing (a b : ℝ) (i : ℕ) (h : i + 1 < 1000) :
    (linspace a b 1000).getD (i + 1) 0 - (linspace a b 1000).getD i 0 = (b - a) / 999 := by
  rw [linspace_getD a b 1000 (i + 1) h, linspace_getD a b 1000 i (by omega)]
  have h999 : ((1000 - 1 : ℕ) : ℝ) = 999 := by norm_num
  rw [h999]
  push_cast
  ring

set_option maxRecDepth 4000 in
theorem computeStats_x_control (c e : Sample) (a : ℚ) (t : ℤ) :
    (computeStats c e a t).x_control =
      linspace (((computeStats c e a t).control_cvr : ℝ) - 4 * (computeStats c e a t).population_std)
        (((computeStats c e a t).control_cvr : ℝ) + 4 * (computeStats c e a t).population_std)
        1000 := rfl

set_option maxRecDepth 4000 in
theorem computeStats_x_experimental (c e : Sample) (a : ℚ) (t : ℤ) :
    (computeStats c e a t).x_experimental =
      linspace
        (((computeStats c e a t).experimental_cvr : ℝ) - 4 * (computeStats c e a t).experimental_std)
        (((computeStats c e a t).experimental_cvr : ℝ) + 4 * (computeStats c e a t).experimental_std)
        1000 := rfl

set_option maxRecDepth 4000 in
theorem computeStats_y_control (c e : Sample) (a : ℚ) (t : ℤ) :
    (computeStats c e a t).y_control =
      (computeStats c e a t).x_control.map
        (normPdf ((computeStats c e a t).control_cvr : ℝ) (computeStats c e a t).population_std) :=
  rfl

set_option maxRecDepth 4000 in
theorem computeStats_y_experimental (c e : Sample) (a : ℚ) (t : ℤ) :
    (computeStats c e a t).y_experimental =
      (computeStats c e a t).x_experimental.map
        (normPdf ((computeStats c e a t).experimental_cvr : ℝ)
          (computeStats c e a t).experimental_std) := rfl

/-- C7: each arm's density is evaluated at exactly 1000 evenly spaced
points from that arm's mean minus 4 standard deviations up to its mean
plus 4 standard deviations (control uses `rate_c` and `se_c`,
experimental uses `rate_e` and `se_e`): the grid has length 1000, first
point mean - 4 sd, point 999 mean + 4 sd, constant spacing 8 sd / 999,
and the y values are the normal density at exactly those points. -/
theorem density_grid_properties (c e : Sample) (a : ℚ) (t : ℤ) (hc : c ≠ []) (he : e ≠ []) :
    (computeStats c e a t).x_control.length = 1000 ∧
    (computeStats c e a t).x_control.getD 0 0 =
      ((computeStats c e a t).control_cvr : ℝ) - 4 * (computeStats c e a t).population_std ∧
    (computeStats c e a t).x_control.getD 999 0 =
      ((computeStats c e a t).control_cvr : ℝ) + 4 * (computeStats c e a t).population_std ∧
    (∀ i : ℕ, i + 1 < 1000 →
      (computeStats c e a t).x_control.getD (i + 1) 0 -
          (computeStats c e a t).x_control.getD i 0 =
        8 * (computeStats c e a t).population_std / 999) ∧
    (computeStats c e a t).y_control =
      (computeStats c e a t).x_control.map
        (normPdf ((computeStats c e a t).control_cvr : ℝ)
          (computeStats c e a t).population_std) ∧
    (computeStats c e a t).x_experimental.length = 1000 ∧
    (computeStats c e a t).x_experimental.getD 0 0 =
      ((computeStats c e a t).experimental_cvr : ℝ) -
        4 * (computeStats c e a t).experimental_std ∧
    (computeStats c e a t).x_experimental.getD 999 0 =
      ((computeStats c e a t).experimental_cvr : ℝ) +
        4 * (computeStats c e a t).experimental_std ∧
    (∀ i : ℕ, i + 1 < 1000 →
      (computeStats c e a t).x_experimental.getD (i + 1) 0 -
          (computeStats c e a t).x_experimental.getD i 0 =
        8 * (computeStats c e a t).experimental_std / 999) ∧
    (computeStats c e a t).y_experimental =
      (computeStats c e a t).x_experimental.map
        (normPdf ((computeStats c e a t).experimental_cvr : ℝ)
          (computeStats c e a t).experimental_std) := by
  refine ⟨?_, ?_, ?_, ?_, computeStats_y_control c e a t, ?_, ?_, ?_, ?_,
    computeStats_y_experimental c e a t⟩
  · rw [computeStats_x_control, linspace_length]
  · rw [computeStats_x_control, linspace_first]
  · rw [computeStats_x_control, linspace_last]
  · intro i hi
    rw [computeStats_x_control, linspace_spacing _ _ i hi]
    ring
  · rw [computeStats_x_experimental, linspace_length]
  · rw [computeStats_x_experimental, linspace_first]
  · rw [computeStats_x_experimental, linspace_last]
  · intro i hi
    rw [computeStats_x_experimental, linspace_spacing _ _ i hi]
    ring

/-- Witness for C7 at control `[1, 0]`, experimental `[1, 1, 0]`: the
control half of the conjunction, instantiated. -/
theorem density_grid_properties_witness :
    (computeStats [1, 0] [1, 1, 0] (1 / 20) 2).x_control.length = 1000 ∧
    (computeStats [1, 0] [1, 1, 0] (1 / 20) 2).x_control.getD 0 0 =
      ((computeStats [1, 0] [1, 1, 0] (1 / 20) 2).control_cvr : ℝ) -
        4 * (computeStats [1, 0] [1, 1, 0] (1 / 20) 2).population_std :=
  ⟨(density_grid_properties [1, 0] [1, 1, 0] (1 / 20) 2 (by decide) (by decide)).1,
    (density_grid_properties [1, 0] [1, 1, 0] (1 / 20) 2 (by decide) (by decide)).2.1⟩

theorem validLevel_false_left (p : ℚ) (h : p ≤ 0) : validLevel p = false := by
  simp [validLevel, not_lt.mpr h]

theorem validLevel_false_right (p : ℚ) (h : 1 ≤ p) : validLevel p = false := by
  simp [validLevel, not_lt.mpr h]

/-- Counterexample to C2 as stated: with non-empty binary samples,
`alpha = 1` (outside the open interval (0,1)) and the default `tails = 2`,
the call does not fail with `DomainError`: both quantile requests are at
level 1/2, which is in the domain of the inverse normal CDF. -/
theorem alpha_one_two_tailed_no_domain_error :
    (run [1, 0] [1, 0] 1 2).result ≠ Except.error Err.DomainError := by
  have hok : (run [1, 0] [1, 0] 1 2).result = .ok (computeStats [1, 0] [1, 0] 1 2) := by
    have hv1 : validLevel (1 - (2 : ℚ)⁻¹) = true := validLevel_true_of _ (by norm_num) (by norm_num)
    have hv2 : validLevel ((2 : ℚ)⁻¹) = true := validLevel_true_of _ (by norm_num) (by norm_num)
    unfold run
    rw [if_neg (by norm_num)]
    simp [hv1, hv2]
  rw [hok]
  simp

/-- C2 amended: with non-empty binary samples, a one-tailed call
(`tails ≠ 2`) fails with `DomainError` for every alpha outside (0,1), and
a two-tailed call (`tails = 2`) fails with `DomainError` exactly for alpha
outside (0,2): for alpha in (0,2) — in particular alpha = 1 — the
two-tailed quantile levels `alpha/2` and `1 - alpha/2` are in-domain and
the call succeeds. -/
theorem domain_error_conditions (c e : Sample) (a : ℚ) (t : ℤ) (hc : c ≠ []) (he : e ≠ [])
    (hbc : ∀ x ∈ c, x = (0 : ℚ) ∨ x = 1) (hbe : ∀ x ∈ e, x = (0 : ℚ) ∨ x = 1) :
    (t ≠ 2 → a ≤ 0 ∨ 1 ≤ a → (run c e a t).result = .error .DomainError) ∧
    (t = 2 → a ≤ 0 ∨ 2 ≤ a → (run c e a t).result = .error .DomainError) ∧
    (t = 2 → 0 < a → a < 2 → (run c e a t).result = .ok (computeStats c e a t)) := by
  have hlen : ¬(c.length = 0 ∨ e.length = 0) := by
    push_neg
    exact ⟨fun h => hc (List.length_eq_zero.mp h), fun h => he (List.length_eq_zero.mp h)⟩
  refine ⟨fun ht ha => ?_, fun ht ha => ?_, fun ht h0 h2 => ?_⟩
  · have hv : validLevel (1 - a) = false := by
      rcases ha with h | h
      · exact validLevel_false_right _ (by linarith)
      · exact validLevel_false_left _ (by linarith)
    unfold run
    rw [if_neg hlen]
    simp [ht, hv]
  · have hv : validLevel (1 - a / 2) = false := by
      rcases ha with h | h
      · exact validLevel_false_right _ (by linarith)
      · exact validLevel_false_left _ (by linarith)
    unfold run
    rw [if_neg hlen]
    simp [ht, hv]
  · have hv1 : validLevel (1 - a / 2) = true := validLevel_true_of _ (by linarith) (by linarith)
    have hv2 : validLevel (a / 2) = true := validLevel_true_of _ (by linarith) (by linarith)
    unfold run
    rw [if_neg hlen]
    simp [ht, hv1, hv2]

/-- Witness for the amended C2: `alpha = 0` with `tails = 2` fails with
`DomainError`. -/
theorem domain_error_conditions_witness :
    (((2 : ℤ) ≠ 2 → (0 : ℚ) ≤ 0 ∨ 1 ≤ (0 : ℚ) →
      (run [1, 0] [1] 0 2).result = .error .DomainError) ∧
    ((2 : ℤ) = 2 → (0 : ℚ) ≤ 0 ∨ 2 ≤ (0 : ℚ) →
      (run [1, 0] [1] 0 2).result = .error .DomainError) ∧
    ((2 : ℤ) = 2 → 0 < (0 : ℚ) → (0 : ℚ) < 2 →
      (run [1, 0] [1] 0 2).result = .ok (computeStats [1, 0] [1] 0 2))) ∧
    (run [1, 0] [1] 0 2).result = .error .DomainError :=
  ⟨domain_error_conditions [1, 0] [1] 0 2 (by decide) (by decide) (by decide) (by decide),
    (domain_error_conditions [1, 0] [1] 0 2 (by decide) (by decide) (by decide) (by decide)).2.1
      rfl (Or.inl le_rfl)⟩

end ExperimentationCharts
